import Mathlib

/-!
Shallow embedding of the rsi 91x mac80211 control-plane driver
(drivers/net/wireless/rsi/rsi_91x_mac80211.c).

Firmware (command-channel) interaction is modelled by an oracle
`fw : Cmd -> Int` giving the return code (0 = success) of each firmware
command, and every operation additionally returns the ordered trace of
firmware commands it issued.  Host-stack upcalls are traced separately.
Machine integers are modelled as Int/Nat with explicit reductions modulo
2^32 exactly where C's integer conversions make them matter.
-/

/-- NL80211_IFTYPE_STATION from nl80211.h. -/
def NL80211_IFTYPE_STATION : Nat := 2

/-- WLAN_CIPHER_SUITE_WEP40 = 0x000FAC01. -/
def WLAN_CIPHER_SUITE_WEP40 : Nat := 1027073

/-- WLAN_CIPHER_SUITE_WEP104 = 0x000FAC05. -/
def WLAN_CIPHER_SUITE_WEP104 : Nat := 1027077

/-- WLAN_CIPHER_SUITE_TKIP = 0x000FAC02. -/
def WLAN_CIPHER_SUITE_TKIP : Nat := 1027074

/-- WLAN_CIPHER_SUITE_CCMP = 0x000FAC04. -/
def WLAN_CIPHER_SUITE_CCMP : Nat := 1027076

/-- IEEE80211_NUM_ACS from mac80211: four access categories. -/
def IEEE80211_NUM_ACS : Nat := 4

/-- Modelled from the spec: the per-access-category queue slot constants
VO_Q, VI_Q, BE_Q, BK_Q are defined in the driver's header (rsi_main.h),
which is not under src/; the spec says the four categories map to fixed
internal slot indices.  The standard values of the driver's header are
used: four distinct slots, BK_Q = 0, BE_Q = 1, VI_Q = 2, VO_Q = 3. -/
def BK_Q : Nat := 0

/-- Best-effort queue slot (see BK_Q). -/
def BE_Q : Nat := 1

/-- Video queue slot (see BK_Q). -/
def VI_Q : Nat := 2

/-- Voice queue slot (see BK_Q). -/
def VO_Q : Nat := 3

/-- VAP_ADD / VAP_DELETE argument of rsi_set_vap_capabilities. -/
inductive VapStatus where
  | vapAdd
  | vapDelete
deriving DecidableEq

/-- Key type argument of rsi_hal_load_key (RSI_PAIRWISE_KEY / RSI_GROUP_KEY). -/
inductive KeyType where
  | pairwiseKey
  | groupKey
deriving DecidableEq

/-- Block-ack event tag carried by rsi_send_aggregation_params_frame
(STA_RX_ADDBA_DONE, STA_RX_DELBA, STA_TX_ADDBA_DONE, STA_TX_DELBA). -/
inductive BaAction where
  | rxAddbaDone
  | rxDelba
  | txAddbaDone
  | txDelba
deriving DecidableEq

/-- One firmware command, abstracting the mgmt-frame send helpers that the
mac80211 callbacks invoke. -/
inductive Cmd where
  | setVapCapabilities (vapStatus : VapStatus)
  | blockUnblock (block : Bool)
  | bandCheck
  | setChannel (ch : Nat)
  | radioParamsUpdate
  | rxFilter (word : Nat)
  | loadKey (keyType : KeyType) (cipher : Nat) (keyidx : Nat) (keylen : Nat)
  | aggregationParams (tid : Nat) (seqNo : Nat) (bufSize : Nat) (event : BaAction)
deriving DecidableEq

/-- Host-stack upcalls issued by the driver (ieee80211_start_tx_ba_cb_irqsafe
and ieee80211_stop_tx_ba_cb_irqsafe). -/
inductive HostCall where
  | startTxBaCb (tid : Nat)
  | stopTxBaCb (tid : Nat)
deriving DecidableEq

/-- EDCA parameter set (struct ieee80211_tx_queue_params). -/
structure EdcaParams where
  aifs : Nat
  cw_min : Nat
  cw_max : Nat
  txop : Nat
deriving DecidableEq

/-- struct security_info of the driver. -/
structure SecurityInfo where
  security_enable : Bool
  ptk_cipher : Nat
  gtk_cipher : Nat
deriving DecidableEq

/-- struct rsi_cqm_info: last reported rssi is an s8, the threshold an int
and the hysteresis a u32 (held as an Int in [0, 2^32)). -/
structure CqmInfo where
  last_cqm_event_rssi : Int
  rssi_thold : Int
  rssi_hyst : Int
deriving DecidableEq

/-- Per-vif bookkeeping (struct vif_priv, slot 0). -/
structure VifInfo where
  seq_start : Nat
  is_ht : Bool
  sgi : Bool
deriving DecidableEq

/-- The slice of struct ieee80211_bss_conf the embedded operations read:
association status and the connected channel's hw_value. -/
structure Bss where
  assoc : Bool
  chanHw : Nat
deriving DecidableEq

/-- struct ieee80211_vif: `ptr` models the object's address (pointer
comparisons), while `vtype` and `bss` model the contents (memcmp). -/
structure Vif where
  ptr : Nat
  vtype : Nat
  bss : Bss
deriving DecidableEq

/-- struct ieee80211_key_conf, the fields this driver touches. -/
structure KeyConf where
  cipher : Nat
  keylen : Nat
  keyidx : Nat
  flagPairwise : Bool
  flagGenerateIV : Bool
  hw_key_idx : Nat
deriving DecidableEq

/-- The shared device state: the union of the rsi_hw / rsi_common fields the
embedded operations read or mutate.  `vifs0` is adapter->vifs[0] (the design
holds at most one interface); `sc_nvifs` is a u8 in the driver (rsi_main.h),
so it is a Nat and every increment or decrement is reduced modulo 256 —
in particular the unconditional decrement in remove_interface wraps a count
of 0 around to 255. -/
structure Common where
  sc_nvifs : Nat
  vifs0 : Option Vif
  secinfo : SecurityInfo
  cqm_info : CqmInfo
  vif_info0 : VifInfo
  hw_data_qs_blocked : Bool
  tx_power : Int
  edca_params : Nat → EdcaParams
  bitrate_mask_2ghz : Nat
  bitrate_mask_5ghz : Nat
  min_rate : Nat

/-- rsi_mac80211_add_interface: only a station interface, and only when no
interface exists yet; otherwise the initial ret = -EOPNOTSUPP (-95) is
returned and the state is untouched.  On the accepting path the count is
incremented and the vif stored before the firmware command is issued, and
the command's status is returned. -/
def rsi_mac80211_add_interface (a : Common) (vif : Vif) (fw : Cmd → Int) :
    Int × Common × List Cmd :=
  if vif.vtype = NL80211_IFTYPE_STATION then
    if a.sc_nvifs = 0 then
      (fw (Cmd.setVapCapabilities VapStatus.vapAdd),
       { a with sc_nvifs := (a.sc_nvifs + 1) % 256, vifs0 := some vif },
       [Cmd.setVapCapabilities VapStatus.vapAdd])
    else (-95, a, [])
  else (-95, a, [])

/-- rsi_mac80211_remove_interface: for a station-typed vif the u8 count is
decremented unconditionally — at 0 it wraps around to 255 — and a
VAP_DELETE command issued (its status ignored); then vifs[0] is cleared
only if its contents memcmp-match the supplied vif.  The C code
dereferences adapter->vifs[0] in the memcmp, so the result is none when
no interface is stored. -/
def rsi_mac80211_remove_interface (a : Common) (vif : Vif) (fw : Cmd → Int) :
    Option (Common × List Cmd) :=
  let a1 :=
    if vif.vtype = NL80211_IFTYPE_STATION then
      { a with sc_nvifs := (a.sc_nvifs + 255) % 256 }
    else a
  let t1 : List Cmd :=
    if vif.vtype = NL80211_IFTYPE_STATION then
      [Cmd.setVapCapabilities VapStatus.vapDelete]
    else []
  match a1.vifs0 with
  | none => none
  | some w =>
      if w.vtype = vif.vtype ∧ w.bss = vif.bss then
        some ({ a1 with vifs0 := none }, t1)
      else
        some (a1, t1)

/-- rsi_config_power: -EINVAL (-22) when no interface is present; a no-op
returning 0 when the requested level equals the cached one; otherwise the
cache is overwritten with the requested level and then the
radio-parameter-update command's status is returned. -/
def rsi_config_power (st : Common) (power_level : Int) (fw : Cmd → Int) :
    Int × Common × List Cmd :=
  if st.sc_nvifs ≤ 0 then (-22, st, [])
  else if power_level = st.tx_power then (0, st, [])
  else (fw Cmd.radioParamsUpdate,
        { st with tx_power := power_level },
        [Cmd.radioParamsUpdate])

/-- Body of rsi_channel_change once adapter->vifs[0] has been dereferenced:
optionally block the data queues, run the band check and (on its success)
the channel-set command, then optionally unblock the queues. -/
def rsi_channel_change_body (st : Common) (vif : Vif) (target : Nat)
    (fw : Cmd → Int) : Int × Common × List Cmd :=
  let conn := vif.bss.chanHw
  let p1 : Common × List Cmd :=
    if vif.bss.assoc = true ∧ st.hw_data_qs_blocked = false ∧ ¬conn = target then
      if fw (Cmd.blockUnblock true) = 0 then
        ({ st with hw_data_qs_blocked := true }, [Cmd.blockUnblock true])
      else (st, [Cmd.blockUnblock true])
    else (st, [])
  let st1 := p1.1
  let p2 : Int × List Cmd :=
    if fw Cmd.bandCheck = 0 then
      (fw (Cmd.setChannel target), [Cmd.bandCheck, Cmd.setChannel target])
    else (fw Cmd.bandCheck, [Cmd.bandCheck])
  let p3 : Common × List Cmd :=
    if vif.bss.assoc = true then
      if st1.hw_data_qs_blocked = true ∧ conn = target then
        if fw (Cmd.blockUnblock false) = 0 then
          ({ st1 with hw_data_qs_blocked := false }, [Cmd.blockUnblock false])
        else (st1, [Cmd.blockUnblock false])
      else (st1, [])
    else
      if st1.hw_data_qs_blocked = true then
        if fw (Cmd.blockUnblock false) = 0 then
          ({ st1 with hw_data_qs_blocked := false }, [Cmd.blockUnblock false])
        else (st1, [Cmd.blockUnblock false])
      else (st1, [])
  (p2.1, p3.1, p1.2 ++ p2.2 ++ p3.2)

/-- rsi_channel_change: the C code dereferences adapter->vifs[0]->bss_conf
unconditionally, so the result is none when no interface is stored. -/
def rsi_channel_change (st : Common) (target : Nat) (fw : Cmd → Int) :
    Option (Int × Common × List Cmd) :=
  match st.vifs0 with
  | none => none
  | some vif => some (rsi_channel_change_body st vif target fw)

/-- rsi_mac80211_conf_tx: queue indices at or beyond IEEE80211_NUM_ACS
return 0 without touching anything; the four access categories
(VO = 0, VI = 1, BE = 2, BK = 3 in mac80211 numbering) each select a fixed
slot of edca_params, the default branch (unreachable after the range guard)
selecting BE_Q. -/
def rsi_mac80211_conf_tx (st : Common) (queue : Nat) (params : EdcaParams) :
    Int × Common :=
  if IEEE80211_NUM_ACS ≤ queue then (0, st)
  else
    let idx :=
      if queue = 0 then VO_Q
      else if queue = 1 then VI_Q
      else if queue = 2 then BE_Q
      else if queue = 3 then BK_Q
      else BE_Q
    (0, { st with edca_params := Function.update st.edca_params idx params })

/-- rsi_hal_key_config: WEP ciphers are pushed once more under the pairwise
key type first (aborting on failure); then the key is pushed under the type
selected by its pairwise flag. -/
def rsi_hal_key_config (key : KeyConf) (fw : Cmd → Int) : Int × List Cmd :=
  let key_type :=
    if key.flagPairwise then KeyType.pairwiseKey else KeyType.groupKey
  let mainCmd := Cmd.loadKey key_type key.cipher key.keyidx key.keylen
  if key.cipher = WLAN_CIPHER_SUITE_WEP104 ∨ key.cipher = WLAN_CIPHER_SUITE_WEP40 then
    let wepCmd := Cmd.loadKey KeyType.pairwiseKey key.cipher key.keyidx key.keylen
    if fw wepCmd = 0 then (fw mainCmd, [wepCmd, mainCmd])
    else (fw wepCmd, [wepCmd])
  else (fw mainCmd, [mainCmd])

/-- SET_KEY / DISABLE_KEY commands of rsi_mac80211_set_key. -/
inductive SetKeyCmd where
  | setKey
  | disableKey
deriving DecidableEq

/-- rsi_mac80211_set_key.  SET_KEY: security_enable is set true, then the
key is pushed; on push failure that status is returned at once (the flag
stays true); on success the cipher is cached under the pairwise or group
slot and the key record gains hw_key_idx and the generate-IV flag.
DISABLE_KEY: security_enable is set false, the key record is zeroed, and
the zeroed key is pushed; the secinfo cipher caches are not touched.
The returned KeyConf is the (possibly rewritten) key record. -/
def rsi_mac80211_set_key (st : Common) (cmd : SetKeyCmd) (key : KeyConf)
    (fw : Cmd → Int) : Int × Common × KeyConf × List Cmd :=
  match cmd with
  | SetKeyCmd.setKey =>
    let st1 := { st with secinfo := { st.secinfo with security_enable := true } }
    let r := rsi_hal_key_config key fw
    if r.1 = 0 then
      let st2 :=
        if key.flagPairwise then
          { st1 with secinfo := { st1.secinfo with ptk_cipher := key.cipher } }
        else
          { st1 with secinfo := { st1.secinfo with gtk_cipher := key.cipher } }
      (0, st2, { key with hw_key_idx := key.keyidx, flagGenerateIV := true }, r.2)
    else (r.1, st1, key, r.2)
  | SetKeyCmd.disableKey =>
    let st1 := { st with secinfo := { st.secinfo with security_enable := false } }
    let zk : KeyConf :=
      { cipher := 0, keylen := 0, keyidx := 0, flagPairwise := false,
        flagGenerateIV := false, hw_key_idx := 0 }
    let r := rsi_hal_key_config zk fw
    (r.1, st1, zk, r.2)

/-- rsi_mac80211_sta_remove: resets the rate bookkeeping and vif_info slot 0,
clears both cached ciphers (but not security_enable), and sends an
allow-all rx filter. -/
def rsi_mac80211_sta_remove (st : Common) (fw : Cmd → Int) :
    Int × Common × List Cmd :=
  (0,
   { st with
     bitrate_mask_2ghz := 0,
     bitrate_mask_5ghz := 0,
     min_rate := 65535,
     vif_info0 := { seq_start := 0, is_ht := false, sgi := false },
     secinfo := { st.secinfo with ptk_cipher := 0, gtk_cipher := 0 } },
   [Cmd.rxFilter 0])

/-- enum ieee80211_ampdu_mlme_action. -/
inductive AmpduAction where
  | rxStart
  | rxStop
  | txStart
  | txStopCont
  | txStopFlush
  | txStopFlushCont
  | txOperational
deriving DecidableEq

/-- struct ieee80211_ampdu_params, the fields this driver reads. -/
structure AmpduParams where
  action : AmpduAction
  tid : Nat
  ssn : Nat
  buf_size : Nat
deriving DecidableEq

/-- rsi_mac80211_ampdu_action.  The vif is located by pointer comparison in
adapter->vifs[]; when it is not found, TX_START and TX_OPERATIONAL index
vif_info[] out of bounds, which is modelled as none.  RX start/stop and TX
stop push the corresponding aggregation command; TX start only records the
starting sequence number in vif_info slot 0 and notifies the host stack; TX
operational pushes the add-block-ack (TX, done) command carrying the
recorded starting sequence number; TX stop notifies the stack only when its
delete command succeeded. -/
def rsi_mac80211_ampdu_action (st : Common) (vif : Vif) (p : AmpduParams)
    (fw : Cmd → Int) : Option (Int × Common × List Cmd × List HostCall) :=
  let matched : Bool :=
    match st.vifs0 with
    | some w => w.ptr == vif.ptr
    | none => false
  match p.action with
  | AmpduAction.rxStart =>
      let c := Cmd.aggregationParams p.tid p.ssn p.buf_size BaAction.rxAddbaDone
      some (fw c, st, [c], [])
  | AmpduAction.rxStop =>
      let c := Cmd.aggregationParams p.tid 0 p.buf_size BaAction.rxDelba
      some (fw c, st, [c], [])
  | AmpduAction.txStart =>
      if matched then
        some (0, { st with vif_info0 := { st.vif_info0 with seq_start := p.ssn } },
              [], [HostCall.startTxBaCb p.tid])
      else none
  | AmpduAction.txStopCont =>
      let c := Cmd.aggregationParams p.tid p.ssn p.buf_size BaAction.txDelba
      some (fw c, st, [c], if fw c = 0 then [HostCall.stopTxBaCb p.tid] else [])
  | AmpduAction.txStopFlush =>
      let c := Cmd.aggregationParams p.tid p.ssn p.buf_size BaAction.txDelba
      some (fw c, st, [c], if fw c = 0 then [HostCall.stopTxBaCb p.tid] else [])
  | AmpduAction.txStopFlushCont =>
      let c := Cmd.aggregationParams p.tid p.ssn p.buf_size BaAction.txDelba
      some (fw c, st, [c], if fw c = 0 then [HostCall.stopTxBaCb p.tid] else [])
  | AmpduAction.txOperational =>
      if matched then
        let c := Cmd.aggregationParams p.tid st.vif_info0.seq_start p.buf_size
                   BaAction.txAddbaDone
        some (fw c, st, [c], [])
      else none

/-- A connection-quality event (enum nl80211_cqm_rssi_threshold_event). -/
inductive CqmEvent where
  | low
  | high
deriving DecidableEq

/-- Reduction of an Int to its u32 value, as C's conversion to unsigned int. -/
def u32 (x : Int) : Int := x % 4294967296

/-- rsi_perform_cqm.  The locals are `s8 rssi`, `s8 last_event`, `int thold`,
`u32 hyst`; in `rssi < (last_event - hyst)` and
`rssi > (last_event + hyst)` C's usual arithmetic conversions turn both
sides into unsigned int, which the u32 reductions reproduce.  On emission
the new rssi is cached as last_cqm_event_rssi. -/
def rsi_perform_cqm (c : CqmInfo) (rssi : Int) : Option CqmEvent × CqmInfo :=
  let last := c.last_cqm_event_rssi
  let thold := c.rssi_thold
  let hyst := c.rssi_hyst
  if rssi < thold ∧ (last = 0 ∨ u32 rssi < u32 (u32 last - hyst)) then
    (some CqmEvent.low, { c with last_cqm_event_rssi := rssi })
  else if rssi > thold ∧ (last = 0 ∨ u32 rssi > u32 (u32 last + hyst)) then
    (some CqmEvent.high, { c with last_cqm_event_rssi := rssi })
  else (none, c)

/-- Folds rsi_perform_cqm over a list of signal readings, collecting the
emitted events in order. -/
def cqmRun (c : CqmInfo) (readings : List Int) : List (Option CqmEvent) × CqmInfo :=
  match readings with
  | [] => ([], c)
  | r :: rs =>
      let step := rsi_perform_cqm c r
      let rest := cqmRun step.2 rs
      (step.1 :: rest.1, rest.2)

/-- Modelled from the spec: the connection-quality monitor as the spec's
pure function over mathematical integers — emit low iff the signal is below
the threshold and (no prior report or more than hysteresis below it), emit
high symmetrically, else nothing.  Stated for refinement comparison with
rsi_perform_cqm. -/
def cqm_spec_event (rssi last thold hyst : Int) : Option CqmEvent :=
  if rssi < thold ∧ (last = 0 ∨ rssi < last - hyst) then some CqmEvent.low
  else if rssi > thold ∧ (last = 0 ∨ rssi > last + hyst) then some CqmEvent.high
  else none

/-- The BSS_CHANGED_CQM branch of rsi_mac80211_bss_info_changed: reset the
last reported value to 0 and cache the new threshold and hysteresis. -/
def rsi_bss_changed_cqm (st : Common) (thold hyst : Int) : Common :=
  { st with cqm_info :=
      { last_cqm_event_rssi := 0, rssi_thold := thold, rssi_hyst := hyst } }

/-- All-success firmware oracle, for concrete runs. -/
def fwOk : Cmd → Int := fun _ => 0

/-- All-zero EDCA parameter set. -/
def edcaZero : EdcaParams := { aifs := 0, cw_min := 0, cw_max := 0, txop := 0 }

/-- Freshly attached device state. -/
def commonInit : Common :=
  { sc_nvifs := 0
    vifs0 := none
    secinfo := { security_enable := false, ptk_cipher := 0, gtk_cipher := 0 }
    cqm_info := { last_cqm_event_rssi := 0, rssi_thold := 0, rssi_hyst := 0 }
    vif_info0 := { seq_start := 0, is_ht := false, sgi := false }
    hw_data_qs_blocked := false
    tx_power := 0
    edca_params := fun _ => edcaZero
    bitrate_mask_2ghz := 0
    bitrate_mask_5ghz := 0
    min_rate := 0 }

/-- All-fail firmware oracle, for concrete runs. -/
def fwFail : Cmd → Int := fun _ => -1

/-- Claim C10: the monitor encodes no-prior-report as a cached
last_cqm_event_rssi of exactly 0; whenever that cache is 0 the hysteresis
test is bypassed, so a reading strictly below the threshold emits low, one
strictly above it emits high, and only an exactly-threshold reading emits
nothing, regardless of the hysteresis; and the BSS_CHANGED_CQM handler
resets the cache to the 0 sentinel. -/
theorem c10_cqm_zero_sentinel (c : CqmInfo) (rssi : Int)
    (h : c.last_cqm_event_rssi = 0) :
    ((rsi_perform_cqm c rssi).1 = some CqmEvent.low ↔ rssi < c.rssi_thold) ∧
    ((rsi_perform_cqm c rssi).1 = some CqmEvent.high ↔ c.rssi_thold < rssi) ∧
    ((rsi_perform_cqm c rssi).1 = none ↔ rssi = c.rssi_thold) ∧
    (∀ (st : Common) (thold hyst : Int),
      (rsi_bss_changed_cqm st thold hyst).cqm_info.last_cqm_event_rssi = 0) := by
  refine ⟨?_, ?_, ?_, fun st thold hyst => rfl⟩ <;>
    · unfold rsi_perform_cqm
      simp only [h]
      split_ifs with h1 h2 <;> simp_all <;> omega

/-- Witness for c10_cqm_zero_sentinel at threshold -70, hysteresis 5,
cached value 0, reading -75. -/
theorem c10_cqm_zero_sentinel_witness :
    (rsi_perform_cqm
        { last_cqm_event_rssi := 0, rssi_thold := -70, rssi_hyst := 5 }
        (-75)).1 = some CqmEvent.low :=
  ((c10_cqm_zero_sentinel
      { last_cqm_event_rssi := 0, rssi_thold := -70, rssi_hyst := 5 }
      (-75) rfl).1).mpr (by decide)

/-- Claim C8 counterexample: the monitor's comparisons are performed in C
unsigned 32-bit arithmetic, so at threshold 10, cached last report 3,
hysteresis 5 and reading 1 the code emits low although 1 is not more than
5 below 3 — the spec's pure function over the integers emits nothing. -/
theorem c8_counterexample :
    (rsi_perform_cqm
        { last_cqm_event_rssi := 3, rssi_thold := 10, rssi_hyst := 5 } 1).1
      = some CqmEvent.low ∧
    cqm_spec_event 1 3 10 5 = none := by
  exact ⟨by decide, by decide⟩

/-- Claim C8 (amended): the monitor agrees with the spec's pure function —
low iff below threshold and (no prior report or more than hysteresis below
it), high symmetrically, caching the reading on emission — whenever the
cached last report is the 0 sentinel, or the cached report and the reading
are both negative with the cached report plus hysteresis still negative
(in particular throughout the negative-dBm operating range); outside that
region the code's unsigned 32-bit comparisons diverge.  Moreover the
reading sequence [-60, -75, -72, -80] at threshold -70 and hysteresis 5
fires exactly two events: high at -60 and low at -75, with nothing at -72
or -80. -/
theorem c8_cqm_amended :
    (∀ (c : CqmInfo) (rssi : Int),
      -128 ≤ rssi → rssi ≤ 127 →
      -128 ≤ c.last_cqm_event_rssi → c.last_cqm_event_rssi ≤ 127 →
      0 ≤ c.rssi_hyst →
      (c.last_cqm_event_rssi = 0 ∨
        (c.last_cqm_event_rssi < 0 ∧ rssi < 0 ∧
          c.last_cqm_event_rssi + c.rssi_hyst < 0)) →
      (rsi_perform_cqm c rssi).1
          = cqm_spec_event rssi c.last_cqm_event_rssi c.rssi_thold c.rssi_hyst ∧
      (rsi_perform_cqm c rssi).2
          = (if (rsi_perform_cqm c rssi).1 = none then c
             else { c with last_cqm_event_rssi := rssi })) ∧
    cqmRun { last_cqm_event_rssi := 0, rssi_thold := -70, rssi_hyst := 5 }
        [-60, -75, -72, -80]
      = ([some CqmEvent.high, some CqmEvent.low, none, none],
         { last_cqm_event_rssi := -75, rssi_thold := -70, rssi_hyst := 5 }) := by
  constructor
  · intro c rssi h1 h2 h3 h4 h5 h6
    unfold rsi_perform_cqm cqm_spec_event u32
    rcases h6 with h6 | ⟨h6a, h6b, h6c⟩ <;>
      constructor <;>
        split_ifs <;>
          first
            | rfl
            | omega
            | (simp_all; try split_ifs <;> first | rfl | omega | simp_all)
  · decide

/-- Witness for the quantified part of c8_cqm_amended at cached report -75,
threshold -70, hysteresis 5, reading -72 (suppressed repeat). -/
theorem c8_cqm_amended_witness :
    (rsi_perform_cqm
        { last_cqm_event_rssi := -75, rssi_thold := -70, rssi_hyst := 5 }
        (-72)).1 = cqm_spec_event (-72) (-75) (-70) 5 :=
  (c8_cqm_amended.1
      { last_cqm_event_rssi := -75, rssi_thold := -70, rssi_hyst := 5 }
      (-72) (by decide) (by decide) (by decide) (by decide) (by decide)
      (Or.inr ⟨by decide, by decide, by decide⟩)).1

/-- A distinguishable EDCA parameter set for concrete runs. -/
def edcaTest : EdcaParams := { aifs := 2, cw_min := 3, cw_max := 7, txop := 47 }

/-- Claim C6 counterexample: conf_tx for the background category
(queue 3 = IEEE80211_AC_BK) stores the parameters in background's own slot
BK_Q through an explicit case with a break — the best-effort slot BE_Q is
left untouched, contradicting the claim that background is stored in
best-effort's slot. -/
theorem c6_counterexample :
    (rsi_mac80211_conf_tx commonInit 3 edcaTest).2.edca_params BK_Q = edcaTest ∧
    (rsi_mac80211_conf_tx commonInit 3 edcaTest).2.edca_params BE_Q = edcaZero ∧
    ¬edcaTest = edcaZero ∧
    (rsi_mac80211_conf_tx commonInit 3 edcaTest).1 = 0 := by
  refine ⟨?_, ?_, by decide, rfl⟩ <;>
    simp [rsi_mac80211_conf_tx, IEEE80211_NUM_ACS, commonInit, Function.update,
          BK_Q, BE_Q, VI_Q, VO_Q]

/-- Claim C6 (amended): conf_tx for a queue index at or beyond the four
recognized access categories is a no-op returning success; each recognized
category stores the supplied EDCA parameter set verbatim at its own fixed
slot — voice at VO_Q, video at VI_Q, best-effort at BE_Q and background at
BK_Q (not best-effort's slot); the default branch mapping to BE_Q is
unreachable behind the range guard. -/
theorem c6_conf_tx_amended (st : Common) (q : Nat) (p : EdcaParams) :
    (IEEE80211_NUM_ACS ≤ q → rsi_mac80211_conf_tx st q p = (0, st)) ∧
    (rsi_mac80211_conf_tx st q p).1 = 0 ∧
    (rsi_mac80211_conf_tx st 0 p).2.edca_params
        = Function.update st.edca_params VO_Q p ∧
    (rsi_mac80211_conf_tx st 1 p).2.edca_params
        = Function.update st.edca_params VI_Q p ∧
    (rsi_mac80211_conf_tx st 2 p).2.edca_params
        = Function.update st.edca_params BE_Q p ∧
    (rsi_mac80211_conf_tx st 3 p).2.edca_params
        = Function.update st.edca_params BK_Q p := by
  refine ⟨fun h => ?_, ?_, rfl, rfl, rfl, rfl⟩
  · simp [rsi_mac80211_conf_tx, h]
  · unfold rsi_mac80211_conf_tx
    split_ifs <;> rfl

/-- Witness for c6_conf_tx_amended: queue 7 is out of range and leaves the
fresh state untouched; queue 3 stores into slot BK_Q. -/
theorem c6_conf_tx_amended_witness :
    rsi_mac80211_conf_tx commonInit 7 edcaTest = (0, commonInit) ∧
    (rsi_mac80211_conf_tx commonInit 3 edcaTest).2.edca_params
        = Function.update commonInit.edca_params BK_Q edcaTest :=
  ⟨(c6_conf_tx_amended commonInit 7 edcaTest).1 (by decide),
   (c6_conf_tx_amended commonInit 3 edcaTest).2.2.2.2.2⟩

/-- Claim C2 counterexample: rsi_config_power caches the requested level
before issuing the radio-parameter-update command, so when the command
fails the error is propagated but the cached tx_power has already changed
to the requested level (20) instead of keeping its prior value (10). -/
theorem c2_counterexample :
    (rsi_config_power { commonInit with sc_nvifs := 1, tx_power := 10 }
        20 fwFail).1 = -1 ∧
    (rsi_config_power { commonInit with sc_nvifs := 1, tx_power := 10 }
        20 fwFail).2.1.tx_power = 20 ∧
    ¬(rsi_config_power { commonInit with sc_nvifs := 1, tx_power := 10 }
        20 fwFail).2.1.tx_power = 10 := by
  refine ⟨rfl, rfl, by intro h; simp [rsi_config_power, fwFail] at h⟩

/-- Claim C2 (amended): rsi_config_power fails with -EINVAL when no
interface is present (state untouched, no command); is a no-op returning 0
issuing no command when the requested level equals the cached level; and
otherwise overwrites the cached level with the requested one and then
returns the radio-parameter-update command's status — so a firmware
failure is propagated to the caller, but the cache then holds the newly
requested level, not its prior value. -/
theorem c2_config_power_amended (st : Common) (p : Int) (fw : Cmd → Int) :
    (st.sc_nvifs ≤ 0 → rsi_config_power st p fw = (-22, st, [])) ∧
    (0 < st.sc_nvifs → p = st.tx_power → rsi_config_power st p fw = (0, st, [])) ∧
    (0 < st.sc_nvifs → ¬p = st.tx_power →
      rsi_config_power st p fw =
        (fw Cmd.radioParamsUpdate, { st with tx_power := p },
         [Cmd.radioParamsUpdate])) := by
  refine ⟨fun h => ?_, fun h1 h2 => ?_, fun h1 h2 => ?_⟩ <;>
    simp [rsi_config_power, *] <;> omega

/-- Witness for c2_config_power_amended: all three branches at concrete
states, with an all-success oracle for the update branch. -/
theorem c2_config_power_amended_witness :
    rsi_config_power commonInit 20 fwOk = (-22, commonInit, []) ∧
    rsi_config_power { commonInit with sc_nvifs := 1, tx_power := 20 } 20 fwOk
      = (0, { commonInit with sc_nvifs := 1, tx_power := 20 }, []) ∧
    rsi_config_power { commonInit with sc_nvifs := 1, tx_power := 10 } 20 fwOk
      = (0, { commonInit with sc_nvifs := 1, tx_power := 20 },
         [Cmd.radioParamsUpdate]) :=
  ⟨(c2_config_power_amended commonInit 20 fwOk).1 (by decide),
   (c2_config_power_amended { commonInit with sc_nvifs := 1, tx_power := 20 }
      20 fwOk).2.1 (by decide) rfl,
   (c2_config_power_amended { commonInit with sc_nvifs := 1, tx_power := 10 }
      20 fwOk).2.2 (by decide) (by decide)⟩

/-- Claim C5: add_interface returns the generic unsupported error -95
(-EOPNOTSUPP) for every non-station type, and the same error whenever any
interface is already counted, in both cases leaving the state untouched
and issuing no command; and it returns success only when the type is
station, no interface existed, and the capability-add command succeeded,
in which case the vif is stored and the count becomes 1. -/
theorem c5_add_interface (a : Common) (vif : Vif) (fw : Cmd → Int) :
    (¬vif.vtype = NL80211_IFTYPE_STATION →
      rsi_mac80211_add_interface a vif fw = (-95, a, [])) ∧
    (¬a.sc_nvifs = 0 →
      rsi_mac80211_add_interface a vif fw = (-95, a, [])) ∧
    ((rsi_mac80211_add_interface a vif fw).1 = 0 →
      vif.vtype = NL80211_IFTYPE_STATION ∧ a.sc_nvifs = 0 ∧
      fw (Cmd.setVapCapabilities VapStatus.vapAdd) = 0 ∧
      (rsi_mac80211_add_interface a vif fw).2.1.vifs0 = some vif ∧
      (rsi_mac80211_add_interface a vif fw).2.1.sc_nvifs = 1) := by
  unfold rsi_mac80211_add_interface
  refine ⟨fun h => ?_, fun h => ?_, fun h => ?_⟩
  · simp [h]
  · split_ifs <;> simp_all
  · split_ifs at h ⊢ <;> simp_all

/-- Witness for c5_add_interface: a non-station vif is refused, a second
add is refused, and a first station add with a successful command stores
the vif. -/
theorem c5_add_interface_witness :
    rsi_mac80211_add_interface commonInit
        { ptr := 1, vtype := 3, bss := { assoc := false, chanHw := 0 } } fwOk
      = (-95, commonInit, []) ∧
    rsi_mac80211_add_interface { commonInit with sc_nvifs := 1 }
        { ptr := 1, vtype := 2, bss := { assoc := false, chanHw := 0 } } fwOk
      = (-95, { commonInit with sc_nvifs := 1 }, []) ∧
    (rsi_mac80211_add_interface commonInit
        { ptr := 1, vtype := 2, bss := { assoc := false, chanHw := 0 } }
        fwOk).2.1.vifs0
      = some { ptr := 1, vtype := 2, bss := { assoc := false, chanHw := 0 } } :=
  ⟨(c5_add_interface commonInit
      { ptr := 1, vtype := 3, bss := { assoc := false, chanHw := 0 } } fwOk).1
      (by decide),
   (c5_add_interface { commonInit with sc_nvifs := 1 }
      { ptr := 1, vtype := 2, bss := { assoc := false, chanHw := 0 } } fwOk).2.1
      (by decide),
   ((c5_add_interface commonInit
      { ptr := 1, vtype := 2, bss := { assoc := false, chanHw := 0 } } fwOk).2.2
      rfl).2.2.2.1⟩

/-- First station vif for the C4 run. -/
def c4_vifA : Vif := { ptr := 1, vtype := 2, bss := { assoc := false, chanHw := 0 } }

/-- Second, contents-distinct station vif for the C4 run. -/
def c4_vifB : Vif := { ptr := 2, vtype := 2, bss := { assoc := false, chanHw := 5 } }

/-- Third, contents-distinct station vif for the C4 run. -/
def c4_vifC : Vif := { ptr := 3, vtype := 2, bss := { assoc := false, chanHw := 6 } }

/-- State after adding c4_vifA to a fresh device. -/
def c4_state1 : Common := (rsi_mac80211_add_interface commonInit c4_vifA fwOk).2.1

/-- State after then removing the non-matching c4_vifB. -/
def c4_state2 : Option Common :=
  (rsi_mac80211_remove_interface c4_state1 c4_vifB fwOk).map Prod.fst

/-- State after then removing the non-matching c4_vifC. -/
def c4_state3 : Option Common :=
  c4_state2.bind fun s => (rsi_mac80211_remove_interface s c4_vifC fwOk).map Prod.fst

/-- Claim C4 counterexample: remove_interface decrements the u8 interface
count unconditionally for station-typed vifs, whether or not they match
the stored one, so add(A); remove(B); remove(C) with non-matching station
vifs wraps the count around to 255, outside {0, 1}. -/
theorem c4_counterexample :
    c4_state3.map Common.sc_nvifs = some 255 ∧
    ¬((255 : Nat) = 0 ∨ (255 : Nat) = 1) := by
  exact ⟨rfl, by decide⟩

/-- Claim C4 (amended): add_interface always preserves the invariant that
the interface count is in {0, 1}; remove_interface preserves it from every
state that actually has one active interface (count 1 and a stored vif),
i.e. under the discipline that each remove follows a successful add; a
station-typed remove issued when the count is already 0 instead wraps the
u8 count around to 255. -/
theorem c4_interface_count_amended (a : Common) (vif : Vif) (fw : Cmd → Int) :
    ((a.sc_nvifs = 0 ∨ a.sc_nvifs = 1) →
      ((rsi_mac80211_add_interface a vif fw).2.1.sc_nvifs = 0 ∨
       (rsi_mac80211_add_interface a vif fw).2.1.sc_nvifs = 1)) ∧
    (a.sc_nvifs = 1 →
      ∀ r, rsi_mac80211_remove_interface a vif fw = some r →
        (r.1.sc_nvifs = 0 ∨ r.1.sc_nvifs = 1)) := by
  constructor
  · intro h
    unfold rsi_mac80211_add_interface
    split_ifs <;> simp_all
  · intro h r hr
    by_cases hv : vif.vtype = NL80211_IFTYPE_STATION
    · cases hvv : a.vifs0 with
      | none => simp [rsi_mac80211_remove_interface, hv, hvv] at hr
      | some w =>
          simp [rsi_mac80211_remove_interface, hv, hvv] at hr
          split_ifs at hr <;>
            · have hr2 := Option.some.inj hr
              subst hr2
              simp
              omega
    · cases hvv : a.vifs0 with
      | none => simp [rsi_mac80211_remove_interface, hv, hvv] at hr
      | some w =>
          simp [rsi_mac80211_remove_interface, hv, hvv] at hr
          split_ifs at hr <;>
            · have hr2 := Option.some.inj hr
              subst hr2
              simp
              omega

/-- Witness for c4_interface_count_amended: a fresh add keeps the count in
{0, 1}, and a matching remove from the one-interface state returns it to 0. -/
theorem c4_interface_count_amended_witness :
    (c4_state1.sc_nvifs = 0 ∨ c4_state1.sc_nvifs = 1) ∧
    ((rsi_mac80211_remove_interface c4_state1 c4_vifA fwOk).map
        (fun r => r.1.sc_nvifs) = some 0) := by
  refine ⟨(c4_interface_count_amended commonInit c4_vifA fwOk).1 (Or.inl rfl), ?_⟩
  have h := (c4_interface_count_amended c4_state1 c4_vifA fwOk).2 rfl
  exact rfl

/-- A pairwise CCMP key for concrete runs. -/
def keyCcmpPairwise : KeyConf :=
  { cipher := WLAN_CIPHER_SUITE_CCMP, keylen := 16, keyidx := 0,
    flagPairwise := true, flagGenerateIV := false, hw_key_idx := 0 }

/-- A device state with security enabled and both ciphers cached. -/
def stWithKeys : Common :=
  { commonInit with
    secinfo := { security_enable := true,
                 ptk_cipher := WLAN_CIPHER_SUITE_CCMP,
                 gtk_cipher := WLAN_CIPHER_SUITE_TKIP } }

/-- Claim C1 counterexample: a successful set_key(DISABLE) clears
security_enable but leaves both cached ciphers exactly as they were —
neither the pairwise nor the group cipher cache is cleared (they are only
cleared by sta_remove). -/
theorem c1_counterexample :
    (rsi_mac80211_set_key stWithKeys SetKeyCmd.disableKey keyCcmpPairwise
        fwOk).1 = 0 ∧
    (rsi_mac80211_set_key stWithKeys SetKeyCmd.disableKey keyCcmpPairwise
        fwOk).2.1.secinfo.security_enable = false ∧
    (rsi_mac80211_set_key stWithKeys SetKeyCmd.disableKey keyCcmpPairwise
        fwOk).2.1.secinfo.ptk_cipher = WLAN_CIPHER_SUITE_CCMP ∧
    (rsi_mac80211_set_key stWithKeys SetKeyCmd.disableKey keyCcmpPairwise
        fwOk).2.1.secinfo.gtk_cipher = WLAN_CIPHER_SUITE_TKIP ∧
    ¬WLAN_CIPHER_SUITE_CCMP = 0 ∧ ¬WLAN_CIPHER_SUITE_TKIP = 0 := by
  exact ⟨rfl, rfl, rfl, rfl, by decide, by decide⟩

/-- Claim C1 (amended): after a successful set_key(SET) with the pairwise
flag and cipher C the cached pairwise cipher equals C and security_enable
is true; after set_key(DISABLE) security_enable is false and the key
record is zeroed, but both cached ciphers keep their prior values; the
cipher caches are cleared (to 0) by sta_remove instead. -/
theorem c1_key_lifecycle_amended (st : Common) (key : KeyConf) (fw : Cmd → Int) :
    ((rsi_mac80211_set_key st SetKeyCmd.setKey key fw).1 = 0 →
      key.flagPairwise = true →
      (rsi_mac80211_set_key st SetKeyCmd.setKey key fw).2.1.secinfo.ptk_cipher
          = key.cipher ∧
      (rsi_mac80211_set_key st SetKeyCmd.setKey key fw).2.1.secinfo.security_enable
          = true) ∧
    ((rsi_mac80211_set_key st SetKeyCmd.disableKey key fw).2.1.secinfo.security_enable
        = false ∧
     (rsi_mac80211_set_key st SetKeyCmd.disableKey key fw).2.1.secinfo.ptk_cipher
        = st.secinfo.ptk_cipher ∧
     (rsi_mac80211_set_key st SetKeyCmd.disableKey key fw).2.1.secinfo.gtk_cipher
        = st.secinfo.gtk_cipher ∧
     (rsi_mac80211_set_key st SetKeyCmd.disableKey key fw).2.2.1
        = { cipher := 0, keylen := 0, keyidx := 0, flagPairwise := false,
            flagGenerateIV := false, hw_key_idx := 0 }) ∧
    ((rsi_mac80211_sta_remove st fw).2.1.secinfo.ptk_cipher = 0 ∧
     (rsi_mac80211_sta_remove st fw).2.1.secinfo.gtk_cipher = 0) := by
  refine ⟨fun h hp => ?_, ⟨rfl, rfl, rfl, rfl⟩, rfl, rfl⟩
  by_cases hc : (rsi_hal_key_config key fw).1 = 0
  · unfold rsi_mac80211_set_key
    simp [hc, hp]
  · exfalso
    unfold rsi_mac80211_set_key at h
    simp [hc] at h

/-- Witness for c1_key_lifecycle_amended: a successful pairwise CCMP SET on
a fresh device caches CCMP as the pairwise cipher and enables security. -/
theorem c1_key_lifecycle_amended_witness :
    (rsi_mac80211_set_key commonInit SetKeyCmd.setKey keyCcmpPairwise
        fwOk).2.1.secinfo.ptk_cipher = keyCcmpPairwise.cipher ∧
    (rsi_mac80211_set_key commonInit SetKeyCmd.setKey keyCcmpPairwise
        fwOk).2.1.secinfo.security_enable = true :=
  (c1_key_lifecycle_amended commonInit keyCcmpPairwise fwOk).1 rfl rfl

/-- Claim C7 counterexample: when the firmware key push fails during
set_key(SET), the failure is returned, the ciphers are untouched, but
security_enable was set to true before the push and stays true — it does
not retain its prior value false. -/
theorem c7_counterexample :
    commonInit.secinfo.security_enable = false ∧
    (rsi_mac80211_set_key commonInit SetKeyCmd.setKey keyCcmpPairwise
        fwFail).1 = -1 ∧
    (rsi_mac80211_set_key commonInit SetKeyCmd.setKey keyCcmpPairwise
        fwFail).2.1.secinfo.security_enable = true := by
  exact ⟨rfl, rfl, rfl⟩

/-- Claim C7 (amended): when the firmware key push of set_key(SET) fails,
the push's status is returned to the caller, the key record is returned
unmodified, and the cached pairwise and group ciphers keep their prior
values — but security_enable has been set to true before the push and
keeps that value on the failure path. -/
theorem c7_set_key_failure_amended (st : Common) (key : KeyConf)
    (fw : Cmd → Int) (h : ¬(rsi_hal_key_config key fw).1 = 0) :
    rsi_mac80211_set_key st SetKeyCmd.setKey key fw
      = ((rsi_hal_key_config key fw).1,
         { st with secinfo := { st.secinfo with security_enable := true } },
         key, (rsi_hal_key_config key fw).2) := by
  unfold rsi_mac80211_set_key
  simp [h]

/-- Witness for c7_set_key_failure_amended: an all-fail oracle on a fresh
device with a pairwise CCMP key. -/
theorem c7_set_key_failure_amended_witness :
    rsi_mac80211_set_key commonInit SetKeyCmd.setKey keyCcmpPairwise fwFail
      = ((rsi_hal_key_config keyCcmpPairwise fwFail).1,
         { commonInit with
           secinfo := { commonInit.secinfo with security_enable := true } },
         keyCcmpPairwise, (rsi_hal_key_config keyCcmpPairwise fwFail).2) :=
  c7_set_key_failure_amended commonInit keyCcmpPairwise fwFail (by decide)

/-- Associated station vif connected on channel 1, for concrete runs. -/
def vifAssoc1 : Vif := { ptr := 1, vtype := 2, bss := { assoc := true, chanHw := 1 } }

/-- Device state holding vifAssoc1 with unblocked data queues. -/
def stAssoc1 : Common := { commonInit with sc_nvifs := 1, vifs0 := some vifAssoc1 }

/-- Oracle on which only the queue-block command fails. -/
def fwBlockFails : Cmd → Int :=
  fun c => if c = Cmd.blockUnblock true then -1 else 0

/-- Claim C3 counterexample: while associated and switching from connected
channel 1 to the new channel 6, the queue-block command is best-effort —
when it fails, hw_data_qs_blocked stays false at the end of the operation,
contradicting the claim that switching to a genuinely new channel while
associated always leaves the flag true. -/
theorem c3_counterexample :
    stAssoc1.hw_data_qs_blocked = false ∧
    vifAssoc1.bss.assoc = true ∧
    ¬vifAssoc1.bss.chanHw = 6 ∧
    (rsi_channel_change stAssoc1 6 fwBlockFails).map
        (fun r => r.2.1.hw_data_qs_blocked) = some false ∧
    (rsi_channel_change stAssoc1 6 fwBlockFails).map (fun r => r.2.2)
      = some [Cmd.blockUnblock true, Cmd.bandCheck, Cmd.setChannel 6] := by
  exact ⟨rfl, rfl, by decide, rfl, rfl⟩

/-- Claim C3 (amended): for a channel change with an interface present:
(1) if associated, the queues unblocked and the connected channel differs
from the target, the queue-block command is issued first, before band
check and channel set, and — provided the block command succeeds — the
operation ends with hw_data_qs_blocked true (a genuinely new channel
leaves the queues blocked); (2) if associated, the queues blocked and the
connected channel equals the target, the unblock command is issued after
the channel programming and on its success the flag becomes false; (3) if
not associated and the queues are blocked, they are likewise unblocked.
Cases (2) and (3) are stated under a successful band check, and all queue
commands' effects are conditioned on their own success, matching the
best-effort semantics. -/
theorem c3_channel_change_amended (st : Common) (vif : Vif) (target : Nat)
    (fw : Cmd → Int) (hv : st.vifs0 = some vif) :
    (vif.bss.assoc = true → st.hw_data_qs_blocked = false →
      ¬vif.bss.chanHw = target →
      fw (Cmd.blockUnblock true) = 0 → fw Cmd.bandCheck = 0 →
      rsi_channel_change st target fw
        = some (fw (Cmd.setChannel target),
                { st with hw_data_qs_blocked := true },
                [Cmd.blockUnblock true, Cmd.bandCheck, Cmd.setChannel target])) ∧
    (vif.bss.assoc = true → st.hw_data_qs_blocked = true →
      vif.bss.chanHw = target →
      fw Cmd.bandCheck = 0 → fw (Cmd.blockUnblock false) = 0 →
      rsi_channel_change st target fw
        = some (fw (Cmd.setChannel target),
                { st with hw_data_qs_blocked := false },
                [Cmd.bandCheck, Cmd.setChannel target, Cmd.blockUnblock false])) ∧
    (vif.bss.assoc = false → st.hw_data_qs_blocked = true →
      fw Cmd.bandCheck = 0 → fw (Cmd.blockUnblock false) = 0 →
      rsi_channel_change st target fw
        = some (fw (Cmd.setChannel target),
                { st with hw_data_qs_blocked := false },
                [Cmd.bandCheck, Cmd.setChannel target, Cmd.blockUnblock false])) := by
  unfold rsi_channel_change
  rw [hv]
  refine ⟨fun h1 h2 h3 h4 h5 => ?_, fun h1 h2 h3 h4 h5 => ?_,
          fun h1 h2 h3 h4 => ?_⟩ <;>
    · unfold rsi_channel_change_body
      simp [h1, h2, h3, h4, *]

/-- Witness for c3_channel_change_amended: all three cases at concrete
states and an all-success oracle (case 1 switches 1 to 6 and ends blocked;
case 2 returns to channel 1 and ends unblocked; case 3 unblocks while
unassociated). -/
theorem c3_channel_change_amended_witness :
    rsi_channel_change stAssoc1 6 fwOk
      = some (0, { stAssoc1 with hw_data_qs_blocked := true },
              [Cmd.blockUnblock true, Cmd.bandCheck, Cmd.setChannel 6]) ∧
    rsi_channel_change { stAssoc1 with hw_data_qs_blocked := true } 1 fwOk
      = some (0, { stAssoc1 with hw_data_qs_blocked := false },
              [Cmd.bandCheck, Cmd.setChannel 1, Cmd.blockUnblock false]) ∧
    rsi_channel_change
        { commonInit with
          vifs0 := some { ptr := 1, vtype := 2,
                          bss := { assoc := false, chanHw := 1 } },
          hw_data_qs_blocked := true } 6 fwOk
      = some (0,
              { commonInit with
                vifs0 := some { ptr := 1, vtype := 2,
                                bss := { assoc := false, chanHw := 1 } },
                hw_data_qs_blocked := false },
              [Cmd.bandCheck, Cmd.setChannel 6, Cmd.blockUnblock false]) :=
  ⟨(c3_channel_change_amended stAssoc1 vifAssoc1 6 fwOk rfl).1
      rfl rfl (by decide) rfl rfl,
   (c3_channel_change_amended { stAssoc1 with hw_data_qs_blocked := true }
      vifAssoc1 1 fwOk rfl).2.1 rfl rfl rfl rfl rfl,
   (c3_channel_change_amended
      { commonInit with
        vifs0 := some { ptr := 1, vtype := 2,
                        bss := { assoc := false, chanHw := 1 } },
        hw_data_qs_blocked := true }
      { ptr := 1, vtype := 2, bss := { assoc := false, chanHw := 1 } }
      6 fwOk rfl).2.2 rfl rfl rfl rfl⟩

/-- Claim C9: when the supplied vif matches the stored one by pointer,
ampdu_action(TX_START) records the supplied starting sequence number in
vif_info slot 0 and returns 0 while issuing no firmware command (only the
host-stack notification); and ampdu_action(TX_OPERATIONAL) issues exactly
one firmware add-block-ack command, TX direction, done, carrying whatever
starting sequence number is currently recorded — the one of the last
TX_START, or a stale previously recorded value when no TX_START
intervened. -/
theorem c9_ampdu_tx_ssn (st : Common) (vif w : Vif) (p : AmpduParams)
    (fw : Cmd → Int) (hv : st.vifs0 = some w) (hp : w.ptr = vif.ptr) :
    (p.action = AmpduAction.txStart →
      rsi_mac80211_ampdu_action st vif p fw
        = some (0,
                { st with vif_info0 := { st.vif_info0 with seq_start := p.ssn } },
                [], [HostCall.startTxBaCb p.tid])) ∧
    (p.action = AmpduAction.txOperational →
      rsi_mac80211_ampdu_action st vif p fw
        = some (fw (Cmd.aggregationParams p.tid st.vif_info0.seq_start
                      p.buf_size BaAction.txAddbaDone),
                st,
                [Cmd.aggregationParams p.tid st.vif_info0.seq_start
                   p.buf_size BaAction.txAddbaDone],
                [])) := by
  constructor <;>
    · intro ha
      unfold rsi_mac80211_ampdu_action
      rw [hv, ha]
      simp [hp]

/-- Witness for c9_ampdu_tx_ssn: TX_START(tid 5, ssn 100) followed by
TX_OPERATIONAL(tid 5) on the resulting state issues the add-block-ack
command carrying sequence number 100. -/
theorem c9_ampdu_tx_ssn_witness :
    rsi_mac80211_ampdu_action stAssoc1 vifAssoc1
        { action := AmpduAction.txStart, tid := 5, ssn := 100, buf_size := 4 } fwOk
      = some (0,
              { stAssoc1 with
                vif_info0 := { stAssoc1.vif_info0 with seq_start := 100 } },
              [], [HostCall.startTxBaCb 5]) ∧
    rsi_mac80211_ampdu_action
        { stAssoc1 with
          vif_info0 := { stAssoc1.vif_info0 with seq_start := 100 } }
        vifAssoc1
        { action := AmpduAction.txOperational, tid := 5, ssn := 0, buf_size := 4 }
        fwOk
      = some (0,
              { stAssoc1 with
                vif_info0 := { stAssoc1.vif_info0 with seq_start := 100 } },
              [Cmd.aggregationParams 5 100 4 BaAction.txAddbaDone], []) :=
  ⟨(c9_ampdu_tx_ssn stAssoc1 vifAssoc1 vifAssoc1
      { action := AmpduAction.txStart, tid := 5, ssn := 100, buf_size := 4 }
      fwOk rfl rfl).1 rfl,
   (c9_ampdu_tx_ssn
      { stAssoc1 with
        vif_info0 := { stAssoc1.vif_info0 with seq_start := 100 } }
      vifAssoc1 vifAssoc1
      { action := AmpduAction.txOperational, tid := 5, ssn := 0, buf_size := 4 }
      fwOk rfl rfl).2 rfl⟩
